import Mathlib

/-!
Shallow embedding of the pure core of `ox_bqpipeline/bqpipeline.py`
(query-parameter typing, table-spec resolution, and query-job-configuration
assembly) together with theorems checking the specification's claims.

Modelling conventions:
* Python runtime values that can appear as query parameters are the inductive
  type `PyValue`.  Python floats are modelled as exact rationals (`ℚ`); the
  classification code only compares floats against the `NUMERIC_BOUNDS`
  constants, and every concrete value appearing in a claim is far enough from
  the bounds that binary-float rounding cannot change the comparison result.
* Raised Python exceptions are modelled with `Except PyError`; a Python
  function that falls through every branch and implicitly returns `None` is
  modelled as `Except.ok Option.none`.
* Python's `str.split('.')` and `str.startswith` are builtins, re-implemented
  here on character lists (`splitDot`, `startsWithGs`) with Python semantics
  (splitting keeps empty segments and maps the empty string to `[""]`).
-/

set_option autoImplicit false

namespace OxBq

/-- A Python dictionary key as used by the parameter validator: the code only
distinguishes string keys from non-string keys, so one non-string sample
constructor (`int`) suffices together with strings. -/
inductive PyKey where
  | str (s : String)
  | int (n : Int)
  deriving DecidableEq

/-- Python runtime type tags, the possible results of `type(value)` for the
values modelled by `PyValue`.  `bool` is its own tag, as in Python, where
`type(True) is bool` even though `bool` subclasses `int`. -/
inductive PyType where
  | str
  | int
  | float
  | bool
  | bytes
  | timestamp
  | date
  | list
  | dict
  | noneType
  deriving DecidableEq

/-- Python values that can be passed to `set_parameter` /
`validate_parameter`: the supported scalars, floats, lists, dictionaries and
`None`.  `datetime.datetime` and `datetime.date` payloads are opaque. -/
inductive PyValue where
  | str (s : String)
  | int (n : Int)
  | float (q : ℚ)
  | bool (b : Bool)
  | bytes (bs : List Nat)
  | timestamp (t : Int)
  | date (d : Int)
  | list (xs : List PyValue)
  | dict (es : List (PyKey × PyValue))
  | none

/-- Runtime type of a value, Python's `type(value)`. -/
def PyValue.typeOf : PyValue → PyType
  | .str _ => .str
  | .int _ => .int
  | .float _ => .float
  | .bool _ => .bool
  | .bytes _ => .bytes
  | .timestamp _ => .timestamp
  | .date _ => .date
  | .list _ => .list
  | .dict _ => .dict
  | .none => .noneType

/-- Python's `isinstance(value, float)`. -/
def PyValue.isFloat : PyValue → Bool
  | .float _ => true
  | _ => false

/-- Embedding of the module-level `BQ_SCALAR_TYPE_MAP` dictionary
(bqpipeline.py lines 35-43), keyed by runtime type; `Option.none` models a
missing key, as returned by `dict.get`. -/
def BQ_SCALAR_TYPE_MAP : PyType → Option String
  | .str => some "STRING"
  | .int => some "INT64"
  | .float => some "FLOAT64"
  | .bool => some "BOOL"
  | .bytes => some "BYTES"
  | .timestamp => some "TIMESTAMP"
  | .date => some "DATE"
  | _ => Option.none

/-- Exact value of the decimal literal
`99999999999999999999999999999.999999999` from `NUMERIC_BOUNDS['max']`
(bqpipeline.py lines 45-46): 38 nines divided by 10^9.  Stored as an already
reduced rational so that comparisons against it evaluate by `decide`. -/
def NUMERIC_MAX : ℚ := Rat.mk' (10 ^ 38 - 1) (10 ^ 9) (by norm_num) (by norm_num)

/-- Exact value of `NUMERIC_BOUNDS['min']`, the negation of the maximum. -/
def NUMERIC_MIN : ℚ := -NUMERIC_MAX

/-- Python truthiness (`bool(value)`) for the modelled values.  NaN and the
infinities are outside the rational model of floats. -/
def pyTruthy : PyValue → Bool
  | .str s => decide (s ≠ "")
  | .int n => decide (n ≠ 0)
  | .float q => decide (q ≠ 0)
  | .bool b => b
  | .bytes bs => decide (bs ≠ [])
  | .timestamp _ => true
  | .date _ => true
  | .list xs => !xs.isEmpty
  | .dict es => !es.isEmpty
  | .none => false

/-- The Python exceptions the embedded code can raise. -/
inductive PyError where
  | valueError (msg : String)
  | typeError
  | indexError
  deriving DecidableEq

/-- Results of `set_parameter`: the three `bigquery` query-parameter classes.
The type tag is `Option String` because `BQ_SCALAR_TYPE_MAP.get` can yield
`None`; struct fields are `Option` results of recursive `set_parameter`
calls. -/
inductive QueryParameter where
  | scalar (key : Option PyKey) (tag : Option String) (value : PyValue)
  | array (key : Option PyKey) (tag : Option String) (values : List PyValue)
  | struct (key : Option PyKey) (fields : List (Option QueryParameter))

/-- One evaluation of the comparison
`v < NUMERIC_BOUNDS['min'] or v > NUMERIC_BOUNDS['max']` inside the list
comprehension of `set_parameter` (bqpipeline.py lines 184-185).  Numbers
(floats, ints, bools) compare against the float bounds; anything else raises
`TypeError` in Python. -/
def outOfNumericBounds : PyValue → Except PyError Bool
  | .float q => .ok (decide (q < NUMERIC_MIN) || decide (NUMERIC_MAX < q))
  | .int n => .ok (decide ((n : ℚ) < NUMERIC_MIN) || decide (NUMERIC_MAX < (n : ℚ)))
  | .bool _ => .ok false
  | _ => .error .typeError

/-- Eager left-to-right evaluation of a Python list comprehension whose body
may raise: stops at the first raised exception. -/
def mapExcept (f : PyValue → Except PyError Bool) : List PyValue → Except PyError (List Bool)
  | [] => .ok []
  | v :: rest =>
    match f v with
    | .error e => .error e
    | .ok b =>
      match mapExcept f rest with
      | .error e => .error e
      | .ok bs => .ok (b :: bs)

/-- Embedding of
`any([v < NUMERIC_BOUNDS['min'] or v > NUMERIC_BOUNDS['max'] for v in value])`:
the comprehension is built eagerly (so a `TypeError` on any element wins over
earlier `True` entries), then `any` folds the flags. -/
def anyOutOfBounds (xs : List PyValue) : Except PyError Bool :=
  match mapExcept outOfNumericBounds xs with
  | .error e => .error e
  | .ok flags => .ok (flags.any id)

mutual

/-- Embedding of the module-level `set_parameter` (bqpipeline.py lines
159-193).  The first arm is the `isinstance(value, (str, int, bytes, bool,
datetime.datetime, datetime.date))` branch; floats are classified NUMERIC
inside the inclusive bounds and FLOAT64 outside; lists raise `ValueError` when
empty and otherwise take their element type from the first element, with the
per-element bound scan for float-headed lists; dictionaries recurse; every
unmatched value falls through to Python's implicit `return None`, modelled as
`Except.ok Option.none`. -/
def set_parameter (key : Option PyKey) (value : PyValue) : Except PyError (Option QueryParameter) :=
  match value with
  | .str _ | .int _ | .bytes _ | .bool _ | .timestamp _ | .date _ =>
    .ok (some (.scalar key (BQ_SCALAR_TYPE_MAP value.typeOf) value))
  | .float q =>
    if q < NUMERIC_MIN ∨ NUMERIC_MAX < q then
      .ok (some (.scalar key (BQ_SCALAR_TYPE_MAP value.typeOf) value))
    else
      .ok (some (.scalar key (some "NUMERIC") value))
  | .list xs =>
    match xs with
    | [] => .error (.valueError "Cannot infer type for empty array parameter.")
    | x :: _ =>
      if x.isFloat = false then
        .ok (some (.array key (BQ_SCALAR_TYPE_MAP x.typeOf) xs))
      else
        match anyOutOfBounds xs with
        | .error e => .error e
        | .ok true => .ok (some (.array key (BQ_SCALAR_TYPE_MAP x.typeOf) xs))
        | .ok false => .ok (some (.array key (some "NUMERIC") xs))
  | .dict es =>
    match set_parameter_fields es with
    | .error e => .error e
    | .ok fields => .ok (some (.struct key fields))
  | .none => .ok Option.none

/-- Embedding of the comprehension
`[set_parameter(k, v) for k, v in value.items()]` feeding
`StructQueryParameter`. -/
def set_parameter_fields : List (PyKey × PyValue) → Except PyError (List (Option QueryParameter))
  | [] => .ok []
  | (k, v) :: rest =>
    match set_parameter (some k) v with
    | .error e => .error e
    | .ok p =>
      match set_parameter_fields rest with
      | .error e => .error e
      | .ok ps => .ok (p :: ps)

end

/-- Python `str.split('.')` on a character list: split at every dot, keeping
empty segments. -/
def splitDotChars : List Char → List (List Char)
  | [] => [[]]
  | c :: rest =>
    let r := splitDotChars rest
    if c = '.' then [] :: r
    else
      match r with
      | [] => [[c]]
      | seg :: segs => (c :: seg) :: segs

/-- Python `s.split('.')`; in particular `"".split('.') == ['']`. -/
def splitDot (s : String) : List String :=
  (splitDotChars s.data).map (fun cs => String.mk cs)

/-- Boolean character-list version of Python `str.startswith`. -/
def listStartsWith : List Char → List Char → Bool
  | [], _ => true
  | _ :: _, [] => false
  | a :: as, b :: bs => decide (a = b) && listStartsWith as bs

/-- Python `dest.startswith('gs://')` (bqpipeline.py line 329). -/
def startsWithGs (s : String) : Bool :=
  listStartsWith ("gs://".data) s.data

/-- Result type of `to_tableref` / `tableref`: the fields of a
`bigquery.table.TableReference`. -/
structure TableReference where
  project : String
  dataset_id : String
  table_id : String
  deriving DecidableEq

/-- Embedding of the module-level `to_tableref` (bqpipeline.py lines
103-110): it indexes `parts[0]`, `parts[1]`, `parts[2]` of the split spec, so
any spec with fewer than three dot-separated segments raises `IndexError`,
and any segments beyond the third are silently dropped. -/
def to_tableref (tablespec_str : String) : Except PyError TableReference :=
  match splitDot tablespec_str with
  | p0 :: p1 :: p2 :: _ => .ok ⟨p0, p1, p2⟩
  | _ => .error .indexError

/-- Embedding of the string case of `BQPipeline.resolve_table_spec`
(bqpipeline.py lines 256-274): a 2-segment spec gets the default project
prepended when one is configured, a 1-segment spec gets project and dataset
prepended when both are configured, and everything else is returned
unchanged. -/
def resolve_table_spec_string (default_project default_dataset : Option String)
    (dest : String) : String :=
  let parts := splitDot dest
  match default_project with
  | some p =>
    if parts.length = 2 then p ++ "." ++ dest
    else
      match default_dataset with
      | some d => if parts.length = 1 then p ++ "." ++ d ++ "." ++ dest else dest
      | Option.none => dest
  | Option.none => dest

/-- Embedding of `BQPipeline.resolve_table_spec` on `None`-or-string input
(the `TableReference` early return is outside the string data model). -/
def resolve_table_spec (default_project default_dataset : Option String) :
    Option String → Option String
  | Option.none => Option.none
  | some t => some (resolve_table_spec_string default_project default_dataset t)

/-- The `bigquery.QueryPriority` values used by `create_job_config`. -/
inductive QueryPriority where
  | BATCH
  | INTERACTIVE
  deriving DecidableEq

/-- The `bigquery.job.CreateDisposition` values used by `create_job_config`. -/
inductive CreateDisposition where
  | CREATE_IF_NEEDED
  | CREATE_NEVER
  deriving DecidableEq

/-- The `bigquery.job.WriteDisposition` values used by `create_job_config`. -/
inductive WriteDisposition where
  | WRITE_TRUNCATE
  | WRITE_APPEND
  | WRITE_EMPTY
  deriving DecidableEq

/-- Fields of a `bigquery.dataset.DatasetReference`. -/
structure DatasetReference where
  project : String
  dataset_id : String
  deriving DecidableEq

/-- The settings `create_job_config` passes to `bigquery.QueryJobConfig`:
`query_parameters` is absent (`Option.none`) when the `query_params` argument
is falsy. -/
structure QueryJobConfig where
  priority : QueryPriority
  default_dataset : Option DatasetReference
  destination : Option TableReference
  create_disposition : CreateDisposition
  write_disposition : WriteDisposition
  query_parameters : Option (List (Option QueryParameter))

/-- The orchestrator state `create_job_config` and `resolve_table_spec` read:
the configured default project and dataset. -/
structure Pipeline where
  default_project : Option String
  default_dataset : Option String
  deriving DecidableEq

/-- Embedding of `len(set(map(type, d))) == 1 and set(...).issubset([str])`
over a dictionary's keys: true exactly when the dictionary is non-empty and
every key is a string. -/
def keysAllStr (es : List (PyKey × PyValue)) : Bool :=
  match es with
  | [] => false
  | _ :: _ =>
    es.all (fun kv =>
      match kv.1 with
      | .str _ => true
      | .int _ => false)

/-- Embedding of
`len(set(map(type, l))) == 1 and set(...).issubset(BQ_SCALAR_TYPE_MAP)` over
a list's elements: true exactly when the list is non-empty, all elements have
one runtime type, and that type is a key of the scalar map. -/
def listTypesUniformScalar (xs : List PyValue) : Bool :=
  match xs with
  | [] => false
  | x :: rest =>
    rest.all (fun v => decide (v.typeOf = x.typeOf)) && (BQ_SCALAR_TYPE_MAP x.typeOf).isSome

mutual

/-- Embedding of `BQPipeline.validate_parameter` (bqpipeline.py lines
378-401): lists must be non-empty with one scalar element type, dictionaries
must be non-empty with string keys and recursively valid values, and scalars
must have a type in the scalar map. -/
def validate_parameter (query_parameter : PyValue) : Bool :=
  match query_parameter with
  | .list xs => listTypesUniformScalar xs
  | .dict es =>
    match es with
    | [] => false
    | _ :: _ => keysAllStr es && validate_parameter_values es
  | v => (BQ_SCALAR_TYPE_MAP v.typeOf).isSome

/-- Embedding of
`all([validate_parameter(d[key]) for key in d])` over a dictionary. -/
def validate_parameter_values : List (PyKey × PyValue) → Bool
  | [] => true
  | (_, v) :: rest => validate_parameter v && validate_parameter_values rest

end

/-- Embedding of `BQPipeline.validate_query_params` (bqpipeline.py lines
357-376): a list is valid when every element validates (so the empty list is
valid here), a dictionary when its keys are uniformly strings and its values
validate, and anything else is invalid. -/
def validate_query_params (query_params : PyValue) : Bool :=
  match query_params with
  | .list xs => xs.all validate_parameter
  | .dict es => keysAllStr es && validate_parameter_values es
  | _ => false

/-- Embedding of `[set_parameter(None, value) for value in query_params]`. -/
def mapExceptParam : List PyValue → Except PyError (List (Option QueryParameter))
  | [] => .ok []
  | v :: rest =>
    match set_parameter Option.none v with
    | .error e => .error e
    | .ok p =>
      match mapExceptParam rest with
      | .error e => .error e
      | .ok ps => .ok (p :: ps)

/-- Embedding of `BQPipeline.set_query_params` (bqpipeline.py lines 403-423):
falsy input (including the empty list and the empty dictionary) returns
`None` before any validation; invalid truthy input raises `ValueError`; valid
lists become positional parameters (key `None`) and valid dictionaries named
parameters.  The final wildcard arm is unreachable because
`validate_query_params` rejects non-collections. -/
def set_query_params (query_params : PyValue) :
    Except PyError (Option (List (Option QueryParameter))) :=
  if pyTruthy query_params = false then .ok Option.none
  else if validate_query_params query_params = false then
    .error (.valueError "Invalid query parameters provided!")
  else
    match query_params with
    | .list xs =>
      match mapExceptParam xs with
      | .error e => .error e
      | .ok ps => .ok (some ps)
    | .dict es =>
      match set_parameter_fields es with
      | .error e => .error e
      | .ok ps => .ok (some ps)
    | _ => .ok Option.none

/-- Embedding of `BQPipeline.create_job_config` (bqpipeline.py lines
300-355).  Evaluation order follows the source: the destination is processed
(and can raise `IndexError` through `to_tableref`) before the query
parameters are validated.  Python's `if dest and not dest.startswith('gs://')`
makes the empty string fall into the no-destination branch. -/
def create_job_config (self : Pipeline) (batch : Bool) (dest : Option String)
    (create : Bool) (overwrite : Bool) (append : Bool) (query_params : Option PyValue) :
    Except PyError QueryJobConfig :=
  let create_disp := if create then CreateDisposition.CREATE_IF_NEEDED
    else CreateDisposition.CREATE_NEVER
  let write_disp := if overwrite then WriteDisposition.WRITE_TRUNCATE
    else if append then WriteDisposition.WRITE_APPEND
    else WriteDisposition.WRITE_EMPTY
  let priority := if batch then QueryPriority.BATCH else QueryPriority.INTERACTIVE
  let destResult : Except PyError (Option TableReference) :=
    match dest with
    | some s =>
      if s ≠ "" ∧ startsWithGs s = false then
        match to_tableref (resolve_table_spec_string self.default_project self.default_dataset s) with
        | .error e => .error e
        | .ok tr => .ok (some tr)
      else .ok Option.none
    | Option.none => .ok Option.none
  match destResult with
  | .error e => .error e
  | .ok dest_tableref =>
    let data_set : Option DatasetReference :=
      match self.default_project, self.default_dataset with
      | some p, some d => some ⟨p, d⟩
      | _, _ => Option.none
    let paramsResult : Except PyError (Option (List (Option QueryParameter))) :=
      match query_params with
      | some qp => if pyTruthy qp then set_query_params qp else .ok Option.none
      | Option.none => .ok Option.none
    match paramsResult with
    | .error e => .error e
    | .ok ps => .ok ⟨priority, data_set, dest_tableref, create_disp, write_disp, ps⟩

/-- The orchestrator configuration used throughout the specification's
examples: default project `testproject`, default dataset `testdataset`. -/
def testPipeline : Pipeline := ⟨some "testproject", some "testdataset"⟩

/-- Exact rational value of the spec example literal `1.0009`. -/
def ratSmallExample : ℚ := Rat.mk' 10009 10000 (by norm_num) (by norm_num)

/-- Exact rational value of the spec example literal
`9999999999999999999999999999999.999999999` (40 nines over 10^9). -/
def ratLargeExample : ℚ := Rat.mk' (10 ^ 40 - 1) (10 ^ 9) (by norm_num) (by norm_num)

/-- Sanity check tying the reduced-rational representation of the NUMERIC
bound back to the literal written as a quotient. -/
theorem NUMERIC_MAX_eq_div : NUMERIC_MAX = (10 ^ 38 - 1 : ℚ) / 10 ^ 9 := by
  rw [NUMERIC_MAX, Rat.mk'_eq_divInt, Rat.divInt_eq_div]
  norm_num

/-- Helper: the bound comprehension over a list of floats never raises and
collects the per-element out-of-bounds flags. -/
theorem mapExcept_oob_float (l : List ℚ) :
    mapExcept outOfNumericBounds (l.map PyValue.float) =
      .ok (l.map (fun x => decide (x < NUMERIC_MIN) || decide (NUMERIC_MAX < x))) := by
  induction l with
  | nil => rfl
  | cons x rest ih => simp [mapExcept, outOfNumericBounds, ih]

/-- Helper: folding `any` over a mapped Boolean list. -/
theorem any_map_id {α : Type} (f : α → Bool) (l : List α) :
    (l.map f).any id = l.any f := by
  induction l with
  | nil => rfl
  | cons x rest ih => simp [ih]

/-- Helper: on a list of floats, `anyOutOfBounds` succeeds and returns whether
some element falls outside the NUMERIC bounds. -/
theorem anyOutOfBounds_float (l : List ℚ) :
    anyOutOfBounds (l.map PyValue.float) =
      .ok (l.any (fun x => decide (x < NUMERIC_MIN) || decide (NUMERIC_MAX < x))) := by
  rw [anyOutOfBounds, mapExcept_oob_float]
  show Except.ok ((List.map _ l).any id) = _
  rw [any_map_id]

/-- Helper: `to_tableref` raises `IndexError` whenever the spec has fewer than
three dot-separated segments. -/
theorem to_tableref_short (spec : String) (h : (splitDot spec).length < 3) :
    to_tableref spec = .error .indexError := by
  rcases hs : splitDot spec with _ | ⟨a, _ | ⟨b, _ | ⟨c, rest⟩⟩⟩
  · rw [to_tableref, hs]
  · rw [to_tableref, hs]
  · rw [to_tableref, hs]
  · rw [hs] at h
    simp at h
    omega

/-- Helper: a truthy but invalid parameter collection makes
`set_query_params` raise the `ValueError`. -/
theorem set_query_params_invalid (qp : PyValue) (h1 : pyTruthy qp = true)
    (h2 : validate_query_params qp = false) :
    set_query_params qp = .error (.valueError "Invalid query parameters provided!") := by
  simp [set_query_params, h1, h2]

/-- C3: a 2-segment table spec with a configured default project P resolves to
`P.<input>`, and a 1-segment spec with configured default project P and
default dataset D resolves to `P.D.<input>`. -/
theorem claim_C3 :
    (∀ (P s : String) (dd : Option String), (splitDot s).length = 2 →
        resolve_table_spec (some P) dd (some s) = some (P ++ "." ++ s))
  ∧ (∀ (P D s : String), (splitDot s).length = 1 →
        resolve_table_spec (some P) (some D) (some s) =
          some (P ++ "." ++ D ++ "." ++ s)) := by
  constructor
  · intro P s dd h
    simp [resolve_table_spec, resolve_table_spec_string, h]
  · intro P D s h
    simp [resolve_table_spec, resolve_table_spec_string, h]

/-- Witness for C3 at the spec's concrete examples. -/
theorem claim_C3_witness :
    (splitDot "testdataset.testtable").length = 2
  ∧ resolve_table_spec (some "testproject") (some "testdataset")
      (some "testdataset.testtable") = some ("testproject" ++ "." ++ "testdataset.testtable")
  ∧ (splitDot "testtable").length = 1
  ∧ resolve_table_spec (some "testproject") (some "testdataset") (some "testtable") =
      some ("testproject" ++ "." ++ "testdataset" ++ "." ++ "testtable") :=
  ⟨by decide,
   claim_C3.1 "testproject" "testdataset.testtable" (some "testdataset") (by decide),
   by decide,
   claim_C3.2 "testproject" "testdataset" "testtable" (by decide)⟩

/-- C4: a 3-segment table spec is returned unchanged by resolution, whatever
defaults are configured. -/
theorem claim_C4 (dp dd : Option String) (s : String) (h : (splitDot s).length = 3) :
    resolve_table_spec dp dd (some s) = some s := by
  rcases dp with _ | p
  · rfl
  · rcases dd with _ | d <;> simp [resolve_table_spec, resolve_table_spec_string, h]

/-- Witness for C4 at a fully qualified spec with clashing defaults. -/
theorem claim_C4_witness :
    (splitDot "testproject.testdataset.testtable").length = 3
  ∧ resolve_table_spec (some "otherproj") (some "otherds")
      (some "testproject.testdataset.testtable") = some "testproject.testdataset.testtable" :=
  ⟨by decide,
   claim_C4 (some "otherproj") (some "otherds") "testproject.testdataset.testtable" (by decide)⟩

/-- C5: on an orchestrator with default project `testproject` and dataset
`testdataset`, the all-default job configuration has no destination, default
dataset `testproject.testdataset`, create-policy if-needed, write-policy
truncate and interactive priority; with `batch=False, create=False,
overwrite=False` it has interactive priority, create-policy never and
write-policy empty-only. -/
theorem claim_C5 :
    create_job_config testPipeline false Option.none true true false Option.none =
      .ok ⟨.INTERACTIVE, some ⟨"testproject", "testdataset"⟩, Option.none,
           .CREATE_IF_NEEDED, .WRITE_TRUNCATE, Option.none⟩
  ∧ create_job_config testPipeline false Option.none false false false Option.none =
      .ok ⟨.INTERACTIVE, some ⟨"testproject", "testdataset"⟩, Option.none,
           .CREATE_NEVER, .WRITE_EMPTY, Option.none⟩ :=
  ⟨rfl, rfl⟩

/-- C7: typing the empty list raises `ValueError`, `['abc']` becomes an array
of STRING, and `[1, 2]` becomes an array of INT64. -/
theorem claim_C7 (key : Option PyKey) :
    set_parameter key (.list []) =
      .error (.valueError "Cannot infer type for empty array parameter.")
  ∧ set_parameter key (.list [.str "abc"]) =
      .ok (some (.array key (some "STRING") [.str "abc"]))
  ∧ set_parameter key (.list [.int 1, .int 2]) =
      .ok (some (.array key (some "INT64") [.int 1, .int 2])) :=
  ⟨rfl, rfl, rfl⟩

/-- C10: a value of unsupported runtime type that is neither a list nor a
mapping (for example `None`) makes `set_parameter` return Python `None`
without raising. -/
theorem claim_C10 (key : Option PyKey) (v : PyValue)
    (hscalar : BQ_SCALAR_TYPE_MAP v.typeOf = Option.none)
    (hlist : ∀ xs, v ≠ .list xs) (hdict : ∀ es, v ≠ .dict es) :
    set_parameter key v = .ok Option.none := by
  cases v
  case list xs => exact absurd rfl (hlist xs)
  case dict es => exact absurd rfl (hdict es)
  case none => rfl
  all_goals simp [BQ_SCALAR_TYPE_MAP, PyValue.typeOf] at hscalar

/-- Witness for C10 at the Python `None` value. -/
theorem claim_C10_witness :
    BQ_SCALAR_TYPE_MAP PyValue.none.typeOf = Option.none
  ∧ set_parameter Option.none PyValue.none = .ok Option.none :=
  ⟨rfl, claim_C10 Option.none PyValue.none rfl
    (fun _ h => PyValue.noConfusion h) (fun _ h => PyValue.noConfusion h)⟩

/-- C2: a float scalar inside the inclusive NUMERIC bounds is typed NUMERIC,
one outside is typed FLOAT64; in particular `1.0009` is NUMERIC and
`9999999999999999999999999999999.999999999` is FLOAT64. -/
theorem claim_C2 :
    (∀ (key : Option PyKey) (q : ℚ), NUMERIC_MIN ≤ q → q ≤ NUMERIC_MAX →
        set_parameter key (.float q) =
          .ok (some (.scalar key (some "NUMERIC") (.float q))))
  ∧ (∀ (key : Option PyKey) (q : ℚ), q < NUMERIC_MIN ∨ NUMERIC_MAX < q →
        set_parameter key (.float q) =
          .ok (some (.scalar key (some "FLOAT64") (.float q))))
  ∧ (∀ key : Option PyKey, set_parameter key (.float ratSmallExample) =
        .ok (some (.scalar key (some "NUMERIC") (.float ratSmallExample))))
  ∧ (∀ key : Option PyKey, set_parameter key (.float ratLargeExample) =
        .ok (some (.scalar key (some "FLOAT64") (.float ratLargeExample)))) := by
  refine ⟨?_, ?_, fun key => rfl, fun key => rfl⟩
  · intro key q h1 h2
    have hcond : ¬ (q < NUMERIC_MIN ∨ NUMERIC_MAX < q) := by
      push_neg
      exact ⟨h1, h2⟩
    simp [set_parameter, hcond]
  · intro key q h
    simp only [set_parameter]
    rw [if_pos h]
    rfl

/-- Witness for C2 at the in-bounds value `0`, with both inclusive-bound
hypotheses discharged concretely. -/
theorem claim_C2_witness :
    NUMERIC_MIN ≤ (0 : ℚ) ∧ (0 : ℚ) ≤ NUMERIC_MAX
  ∧ set_parameter Option.none (.float 0) =
      .ok (some (.scalar Option.none (some "NUMERIC") (.float 0))) :=
  ⟨by decide, by decide, claim_C2.1 Option.none 0 (by decide) (by decide)⟩

/-- C1: a non-empty list of floats is typed as an array of NUMERIC exactly
when every element lies inside the NUMERIC bounds, and as an array of FLOAT64
when some element lies outside them. -/
theorem claim_C1 (key : Option PyKey) (q : ℚ) (qs : List ℚ) :
    (set_parameter key (.list ((q :: qs).map PyValue.float)) =
        .ok (some (.array key (some "NUMERIC") ((q :: qs).map PyValue.float)))
      ↔ ∀ x ∈ q :: qs, NUMERIC_MIN ≤ x ∧ x ≤ NUMERIC_MAX)
  ∧ ((∃ x ∈ q :: qs, x < NUMERIC_MIN ∨ NUMERIC_MAX < x) →
      set_parameter key (.list ((q :: qs).map PyValue.float)) =
        .ok (some (.array key (some "FLOAT64") ((q :: qs).map PyValue.float)))) := by
  have hany := anyOutOfBounds_float (q :: qs)
  have hNum : (q :: qs).any (fun x => decide (x < NUMERIC_MIN) || decide (NUMERIC_MAX < x)) = false →
      set_parameter key (.list ((q :: qs).map PyValue.float)) =
        .ok (some (.array key (some "NUMERIC") ((q :: qs).map PyValue.float))) := by
    intro hb
    rw [hb] at hany
    simp only [List.map_cons] at hany
    simp [set_parameter, PyValue.isFloat, hany]
  have hFl : (q :: qs).any (fun x => decide (x < NUMERIC_MIN) || decide (NUMERIC_MAX < x)) = true →
      set_parameter key (.list ((q :: qs).map PyValue.float)) =
        .ok (some (.array key (some "FLOAT64") ((q :: qs).map PyValue.float))) := by
    intro hb
    rw [hb] at hany
    simp only [List.map_cons] at hany
    simp [set_parameter, PyValue.isFloat, hany, PyValue.typeOf, BQ_SCALAR_TYPE_MAP]
  constructor
  · constructor
    · intro heq x hx
      by_cases hb : (q :: qs).any (fun x => decide (x < NUMERIC_MIN) || decide (NUMERIC_MAX < x)) = true
      · rw [hFl hb] at heq
        simp at heq
      · have hb2 := Bool.not_eq_true _ |>.mp hb
        have hall := List.any_eq_false.mp hb2 x hx
        simp only [Bool.or_eq_true, decide_eq_true_eq, not_or, not_lt] at hall
        exact hall
    · intro hall
      apply hNum
      rw [List.any_eq_false]
      intro x hx
      simp only [Bool.or_eq_true, decide_eq_true_eq, not_or, not_lt]
      exact (hall x hx)
  · rintro ⟨x, hx, hout⟩
    apply hFl
    rw [List.any_eq_true]
    refine ⟨x, hx, ?_⟩
    simp only [Bool.or_eq_true, decide_eq_true_eq]
    exact hout

/-- Witness for C1 at the list `[1.0, 9999999999999999999999999999999.999999999]`,
whose second element is out of bounds. -/
theorem claim_C1_witness :
    (∃ x ∈ (1 : ℚ) :: [ratLargeExample], x < NUMERIC_MIN ∨ NUMERIC_MAX < x)
  ∧ set_parameter Option.none (.list (((1 : ℚ) :: [ratLargeExample]).map PyValue.float)) =
      .ok (some (.array Option.none (some "FLOAT64")
        (((1 : ℚ) :: [ratLargeExample]).map PyValue.float))) :=
  ⟨⟨ratLargeExample, by simp, Or.inr (by decide)⟩,
   (claim_C1 Option.none 1 [ratLargeExample]).2
     ⟨ratLargeExample, by simp, Or.inr (by decide)⟩⟩

/-- Counterexample to C6 as stated: the empty string does not begin with
`gs://`, yet `create_job_config` attaches no destination table for it
(Python's `if dest` treats the empty string as falsy). -/
theorem claim_C6_counterexample :
    startsWithGs "" = false
  ∧ (create_job_config testPipeline false (some "") true true false Option.none).map
      (fun c => c.destination) = .ok Option.none :=
  ⟨rfl, rfl⟩

/-- C6 (amended): a non-empty destination string that does not begin with
`gs://` and whose resolved form has at least three dot-separated segments is
attached (first three segments) as the destination table; a `gs://`
destination, the empty string, or an absent destination leaves the
destination table unset. -/
theorem claim_C6 :
    (∀ (self : Pipeline) (batch create overwrite append : Bool)
        (s p0 p1 p2 : String) (ps : List String),
        s ≠ "" → startsWithGs s = false →
        splitDot (resolve_table_spec_string self.default_project self.default_dataset s) =
          p0 :: p1 :: p2 :: ps →
        (create_job_config self batch (some s) create overwrite append Option.none).map
          (fun c => c.destination) = .ok (some ⟨p0, p1, p2⟩))
  ∧ (∀ (self : Pipeline) (batch create overwrite append : Bool) (s : String),
        startsWithGs s = true →
        (create_job_config self batch (some s) create overwrite append Option.none).map
          (fun c => c.destination) = .ok Option.none)
  ∧ (∀ (self : Pipeline) (batch create overwrite append : Bool),
        (create_job_config self batch Option.none create overwrite append Option.none).map
          (fun c => c.destination) = .ok Option.none) := by
  refine ⟨?_, ?_, ?_⟩
  · intro self batch create overwrite append s p0 p1 p2 ps hne hgs hsplit
    have hdest : to_tableref
        (resolve_table_spec_string self.default_project self.default_dataset s) =
        .ok ⟨p0, p1, p2⟩ := by
      rw [to_tableref, hsplit]
    simp [create_job_config, hne, hgs, hdest, Except.map]
  · intro self batch create overwrite append s hgs
    simp [create_job_config, hgs, Except.map]
  · intro self batch create overwrite append
    simp [create_job_config, Except.map]

/-- Witness for C6 at destination `testtable` on the test orchestrator. -/
theorem claim_C6_witness :
    ("testtable" : String) ≠ ""
  ∧ startsWithGs "testtable" = false
  ∧ splitDot (resolve_table_spec_string testPipeline.default_project
      testPipeline.default_dataset "testtable") = ["testproject", "testdataset", "testtable"]
  ∧ (create_job_config testPipeline false (some "testtable") true true false Option.none).map
      (fun c => c.destination) = .ok (some ⟨"testproject", "testdataset", "testtable"⟩) :=
  ⟨by decide, rfl, by decide,
   claim_C6.1 testPipeline false true true false "testtable" "testproject" "testdataset"
     "testtable" [] (by decide) rfl (by decide)⟩

/-- Counterexample to C8 as stated: the empty mapping supplied as the
top-level parameter collection does not raise at configuration-build time —
`set_query_params` returns `None` and `create_job_config` succeeds without
query parameters. -/
theorem claim_C8_counterexample :
    set_query_params (.dict []) = .ok Option.none
  ∧ create_job_config testPipeline false Option.none true true false (some (.dict [])) =
      .ok ⟨.INTERACTIVE, some ⟨"testproject", "testdataset"⟩, Option.none,
           .CREATE_IF_NEEDED, .WRITE_TRUNCATE, Option.none⟩ :=
  ⟨rfl, rfl⟩

/-- C8 (amended): a truthy (non-empty) parameter collection that fails
validation — non-uniform element types, a non-string-keyed mapping, nested
empty collections — raises `ValueError` at configuration-build time; a
top-level empty list or empty mapping instead short-circuits to `None`
(treated as no parameters) without raising. -/
theorem claim_C8 :
    (∀ qp : PyValue, pyTruthy qp = true → validate_query_params qp = false →
        set_query_params qp = .error (.valueError "Invalid query parameters provided!"))
  ∧ (∀ (self : Pipeline) (batch create overwrite append : Bool) (qp : PyValue),
        pyTruthy qp = true → validate_query_params qp = false →
        create_job_config self batch Option.none create overwrite append (some qp) =
          .error (.valueError "Invalid query parameters provided!"))
  ∧ set_query_params (.list []) = .ok Option.none
  ∧ set_query_params (.dict []) = .ok Option.none
  ∧ set_query_params (.list [.int 1, .list [.int 1, .str "two"]]) =
      .error (.valueError "Invalid query parameters provided!")
  ∧ set_query_params (.dict [(.int 1, .int 1)]) =
      .error (.valueError "Invalid query parameters provided!") := by
  refine ⟨fun qp h1 h2 => set_query_params_invalid qp h1 h2, ?_, rfl, rfl, by rfl, by rfl⟩
  intro self batch create overwrite append qp h1 h2
  simp [create_job_config, h1, set_query_params_invalid qp h1 h2]

/-- Witness for C8 at the collection `[1, [1, 'two']]`, which contains a
non-uniform array parameter, used when building a job configuration. -/
theorem claim_C8_witness :
    pyTruthy (.list [.int 1, .list [.int 1, .str "two"]]) = true
  ∧ validate_query_params (.list [.int 1, .list [.int 1, .str "two"]]) = false
  ∧ create_job_config testPipeline false Option.none true true false
      (some (.list [.int 1, .list [.int 1, .str "two"]])) =
      .error (.valueError "Invalid query parameters provided!") :=
  ⟨rfl, by rfl,
   claim_C8.2.1 testPipeline false true true false (.list [.int 1, .list [.int 1, .str "two"]])
     rfl (by rfl)⟩

/-- Counterexample to C9 as stated: the ambiguous identifier `mytable`, with
no defaults configured, is indeed returned unchanged by resolution, but using
it as a non-object-storage destination during job-configuration building
raises a local `IndexError` instead of deferring to the external service. -/
theorem claim_C9_counterexample :
    resolve_table_spec Option.none Option.none (some "mytable") = some "mytable"
  ∧ create_job_config ⟨Option.none, Option.none⟩ false (some "mytable") true true false
      Option.none = .error .indexError :=
  ⟨rfl, rfl⟩

/-- C9 (amended): resolution itself never raises on malformed or ambiguous
identifiers — specs with four or more segments, specs with no default project,
and 1-segment specs with no default dataset are all returned unchanged — but
when a non-empty, non-`gs://` destination resolves to fewer than three
segments, job-configuration building raises a local `IndexError` through
`to_tableref` rather than passing the identifier through to the service. -/
theorem claim_C9 :
    (∀ (dp dd : Option String) (s : String), 4 ≤ (splitDot s).length →
        resolve_table_spec dp dd (some s) = some s)
  ∧ (∀ (dd : Option String) (s : String),
        resolve_table_spec Option.none dd (some s) = some s)
  ∧ (∀ (dp : Option String) (s : String), (splitDot s).length = 1 →
        resolve_table_spec dp Option.none (some s) = some s)
  ∧ (∀ (self : Pipeline) (batch create overwrite append : Bool) (s : String),
        s ≠ "" → startsWithGs s = false →
        (splitDot (resolve_table_spec_string self.default_project self.default_dataset s)).length < 3 →
        create_job_config self batch (some s) create overwrite append Option.none =
          .error .indexError) := by
  refine ⟨?_, ?_, ?_, ?_⟩
  · intro dp dd s h
    have h2 : (splitDot s).length ≠ 2 := by omega
    have h1 : (splitDot s).length ≠ 1 := by omega
    rcases dp with _ | p
    · rfl
    · rcases dd with _ | d <;> simp [resolve_table_spec, resolve_table_spec_string, h1, h2]
  · intro dd s
    rfl
  · intro dp s h
    rcases dp with _ | p
    · rfl
    · simp [resolve_table_spec, resolve_table_spec_string, h]
  · intro self batch create overwrite append s hne hgs hlen
    have herr := to_tableref_short _ hlen
    simp [create_job_config, hne, hgs, herr]

/-- Witness for C9 at the 1-segment destination `sometable` on an
orchestrator with a default project but no default dataset. -/
theorem claim_C9_witness :
    ("sometable" : String) ≠ ""
  ∧ startsWithGs "sometable" = false
  ∧ (splitDot (resolve_table_spec_string (some "proj") Option.none "sometable")).length < 3
  ∧ create_job_config ⟨some "proj", Option.none⟩ false (some "sometable") true true false
      Option.none = .error .indexError :=
  ⟨by decide, rfl, by decide,
   claim_C9.2.2.2 ⟨some "proj", Option.none⟩ false true true false "sometable"
     (by decide) rfl (by decide)⟩

end OxBq
